import Mathlib

/-!
Shallow embedding of the governance validation scripts of the
prima-delivery-demonstrator repository:

* `scripts/governance-linter.js` (the full variant): front-matter extraction,
  `validateRoadFrontMatter`, `validateStateMachine`, `validateChangeFrontMatter`,
  `findRoadFile`, `lintRoadItem`, `lintAllRoads`, `lintChangeFiles`,
  exit-code logic;
* the simple road/ADR linter variant: `validateAllRoads`, `validateAllAdrs`;
* `scripts/validate-changes.js`: `validateChange` and its `main` directory handling.

Modelling conventions:
* A JavaScript front-matter object is embedded as a typed record.  A field that
  is absent (or JS-falsy where the source tests truthiness) is `none`.
* The filesystem is passed explicitly: the set of capability files is a list of
  their ids, the set of ROAD files is an association list from road id to that
  road's declared status, and a linted directory is `Option (List …)` with
  `none` for a missing directory.
* `yaml.load`, which either returns a value or raises, is embedded as the
  outcome value `YamlLoad` handed to `extractFrontMatter`.
-/

namespace GovLint

/-- Character-list test: `pat` occurs at the head of `hay`. -/
def charsHavePre : List Char → List Char → Bool
  | [], _ => true
  | _ :: _, [] => false
  | p :: ps, h :: hs => p == h && charsHavePre ps hs

/-- Character-list substring search. -/
def charsContain : List Char → List Char → Bool
  | [], pat => pat.isEmpty
  | h :: hs, pat => charsHavePre pat (h :: hs) || charsContain hs pat

/-- String substring test, used to model `String.prototype.includes` /
`JSON.stringify(...).includes`. -/
def strContainsSub (s pat : String) : Bool :=
  charsContain s.data pat.data

/-- Model of the linters' anchored id regexes `^PAT-\d+$`: the string starts
with the given literal and the remainder is one or more digits. -/
def matchesIdPat (pat : String) (s : String) : Bool :=
  charsHavePre pat.data s.data &&
    (let rest := s.data.drop pat.data.length
     !rest.isEmpty && rest.all (fun c => c.isDigit))

/-- `^ROAD-\d+$` -/
def matchesRoadId (s : String) : Bool := matchesIdPat "ROAD-" s

/-- `^CHANGE-\d+$` -/
def matchesChangeId (s : String) : Bool := matchesIdPat "CHANGE-" s

/-- `^CAP-\d+$` -/
def matchesCapId (s : String) : Bool := matchesIdPat "CAP-" s

/-- Render an optional string the way JS template interpolation renders a
possibly-undefined value. -/
def renderOpt (o : Option String) : String := o.getD "undefined"

/-! ## Data model of ROAD front matter -/

/-- `governance.adrs` of a ROAD item. -/
structure AdrsGov where
  validated : Option Bool := none
  validated_by : Option String := none
deriving DecidableEq

/-- `governance.bdd` of a ROAD item. -/
structure BddGov where
  id : Option String := none
  status : Option String := none
deriving DecidableEq

/-- One entry of `governance.nfrs.results` (keyed by NFR id). -/
structure NfrResult where
  status : Option String := none
deriving DecidableEq

/-- `governance.nfrs` of a ROAD item. -/
structure NfrsGov where
  applicable : Option (List String) := none
  status : Option String := none
  results : Option (List (String × NfrResult)) := none
deriving DecidableEq

/-- The `governance` record of a ROAD item. -/
structure Governance where
  adrs : Option AdrsGov := none
  bdd : Option BddGov := none
  nfrs : Option NfrsGov := none
  capabilities : Option (List String) := none
deriving DecidableEq

/-- Front matter of a ROAD item (the fields the linter reads). -/
structure RoadFM where
  id : Option String := none
  title : Option String := none
  status : Option String := none
  governance : Option Governance := none
deriving DecidableEq

/-- JS truthiness of `frontMatter.governance?.adrs?.validated`. -/
def RoadFM.adrsValidated (fm : RoadFM) : Bool :=
  match fm.governance with
  | some g =>
    match g.adrs with
    | some a => a.validated.getD false
    | none => false
  | none => false

/-- `frontMatter.governance?.bdd?.status` -/
def RoadFM.bddStatus (fm : RoadFM) : Option String :=
  (fm.governance.bind Governance.bdd).bind BddGov.status

/-- `frontMatter.governance?.nfrs?.status` -/
def RoadFM.nfrsStatus (fm : RoadFM) : Option String :=
  (fm.governance.bind Governance.nfrs).bind NfrsGov.status

/-- `frontMatter.governance?.nfrs?.applicable || []` -/
def RoadFM.nfrsApplicable (fm : RoadFM) : List String :=
  ((fm.governance.bind Governance.nfrs).bind NfrsGov.applicable).getD []

/-- `frontMatter.governance?.nfrs?.results || {}` -/
def RoadFM.nfrsResults (fm : RoadFM) : List (String × NfrResult) :=
  ((fm.governance.bind Governance.nfrs).bind NfrsGov.results).getD []

/-- `nfrResults[nfrId]` -/
def lookupNfr (rs : List (String × NfrResult)) (nfrId : String) : Option NfrResult :=
  (rs.find? (fun p => p.1 == nfrId)).map Prod.snd

/-! ## Enumerations and the transition table (governance-linter.js) -/

/-- `VALID_ROAD_STATUSES` of governance-linter.js. -/
def VALID_ROAD_STATUSES : List String :=
  ["proposed", "adr_validated", "bdd_pending", "bdd_complete",
   "implementing", "nfr_validating", "nfr_blocked", "complete"]

/-- `STATE_MACHINE_TRANSITIONS` of governance-linter.js, lines 395-403 of the
combined source: note the absence of any `nfr_blocked` key and that
`nfr_validating` maps to `['complete']` only. -/
def STATE_MACHINE_TRANSITIONS : List (String × List String) :=
  [("proposed", ["adr_validated"]),
   ("adr_validated", ["bdd_pending"]),
   ("bdd_pending", ["bdd_complete"]),
   ("bdd_complete", ["implementing"]),
   ("implementing", ["nfr_validating"]),
   ("nfr_validating", ["complete"]),
   ("complete", [])]

/-- `STATE_MACHINE_TRANSITIONS[previousState] || []`. -/
def transitionsFor (prev : String) : List String :=
  ((STATE_MACHINE_TRANSITIONS.find? (fun p => p.1 == prev)).map Prod.snd).getD []

/-- Modelled from the spec: the transition table of spec section 4.3, which in
addition to the code's rows has the `nfr_validating → nfr_blocked` branch and
the `nfr_blocked → nfr_validating` loop.  Used only to compare the spec's
relation with the code's relation. -/
def specStateMachineTransitions : List (String × List String) :=
  [("proposed", ["adr_validated"]),
   ("adr_validated", ["bdd_pending"]),
   ("bdd_pending", ["bdd_complete"]),
   ("bdd_complete", ["implementing"]),
   ("implementing", ["nfr_validating"]),
   ("nfr_validating", ["complete", "nfr_blocked"]),
   ("nfr_blocked", ["nfr_validating"]),
   ("complete", [])]

/-- Lookup in the spec's table. -/
def specTransitionsFor (prev : String) : List String :=
  ((specStateMachineTransitions.find? (fun p => p.1 == prev)).map Prod.snd).getD []

/-! ## validateRoadFrontMatter (governance-linter.js lines 445-542) -/

/-- The message `Invalid state transition: prev → cur`. -/
def invalidTransitionMsg (prev cur : String) : String :=
  s!"Invalid state transition: {prev} → {cur}"

/-- The required-field, id-format and status-enum checks at the head of
`validateRoadFrontMatter` (lines 450-463). -/
def roadRequiredFieldErrors (fm : RoadFM) : List String :=
  (if fm.id = none then ["Missing required field: id"] else []) ++
  (if fm.title = none then ["Missing required field: title"] else []) ++
  (if fm.status = none then ["Missing required field: status"] else []) ++
  (if fm.governance = none then ["Missing required field: governance"] else []) ++
  (match fm.id with
   | some i => if !matchesRoadId i then [s!"Invalid id format: {i} (expected ROAD-XXX)"] else []
   | none => []) ++
  (match fm.status with
   | some s => if !VALID_ROAD_STATUSES.contains s then [s!"Invalid status: {s}"] else []
   | none => [])

/-- The `governance.adrs` error of `validateRoadFrontMatter` (lines 468-476). -/
def roadAdrsSectionErrors (g : Governance) : List String :=
  if g.adrs = none then ["Missing governance.adrs section"] else []

/-- The `governance.adrs` warnings of `validateRoadFrontMatter`. -/
def roadAdrsSectionWarnings (g : Governance) : List String :=
  match g.adrs with
  | some a =>
    (if a.validated = none then ["governance.adrs.validated not specified"] else []) ++
    (if a.validated.getD false ∧ a.validated_by = none then
      ["governance.adrs.validated is true but validated_by is missing"] else [])
  | none => []

/-- The `governance.bdd` errors of `validateRoadFrontMatter` (lines 479-491). -/
def roadBddSectionErrors (status : Option String) (g : Governance) : List String :=
  match g.bdd with
  | some b =>
    if status ≠ some "proposed" ∧ status ≠ some "adr_validated" then
      (if b.id = none then ["BDD id required when status is bdd_pending or later"] else []) ++
      (if status ≠ some "bdd_pending" ∧ b.status = none then
        ["BDD status required when status is bdd_complete or later"] else [])
    else []
  | none =>
    if status ≠ some "proposed" ∧ status ≠ some "adr_validated" then
      ["Missing governance.bdd section required for this status"]
    else []

/-- The `governance.nfrs` errors of `validateRoadFrontMatter` (lines 494-508):
in particular, `status == complete` with `governance.nfrs.status !== 'pass'`
yields `All NFRs must pass before status can be complete`. -/
def roadNfrSectionErrors (status : Option String) (g : Governance) : List String :=
  match g.nfrs with
  | some n =>
    (if n.applicable = none then ["governance.nfrs.applicable must be an array"] else []) ++
    (if status = some "nfr_validating" ∨ status = some "complete" then
      (if n.results = none then
        ["governance.nfrs.results required when status is nfr_validating or complete"] else []) ++
      (if status = some "complete" ∧ n.status ≠ some "pass" then
        ["All NFRs must pass before status can be complete"] else [])
    else [])
  | none =>
    if status = some "nfr_validating" ∨ status = some "complete" then
      ["Missing governance.nfrs section required for this status"]
    else []

/-- The capability-or-NFR rule of `validateRoadFrontMatter` (lines 511-524). -/
def roadCapabilityRuleErrors (g : Governance) : List String :=
  let hasCapabilities : Bool := !(g.capabilities.getD []).isEmpty
  let hasApplicableNFRs : Bool :=
    match g.nfrs with
    | some n => !(n.applicable.getD []).isEmpty
    | none => false
  let hasFailingNFRs : Bool :=
    match g.nfrs with
    | some n => n.status == some "fail"
    | none => false
  if !hasCapabilities && !hasApplicableNFRs && !hasFailingNFRs then
    ["ROAD item must have at least one capability OR non-compliant NFR"]
  else []

/-- The capability-reference checks of `validateRoadFrontMatter` (lines
527-538); `capFiles` is the `findCapabilityFile` environment. -/
def roadCapabilityRefErrors (capFiles : List String) (g : Governance) : List String :=
  if !(g.capabilities.getD []).isEmpty then
    (g.capabilities.getD []).flatMap (fun cap =>
      (if !matchesCapId cap then [s!"Invalid capability reference: {cap}"] else []) ++
      (if !capFiles.contains cap then [s!"Referenced capability file not found: {cap}"] else []))
  else []

/-- `validateRoadFrontMatter(filePath, frontMatter)` of governance-linter.js
(lines 445-542).  `capFiles` is the list of capability ids for which a
capability file exists.  Returns `(errors, warnings)` in source push order. -/
def validateRoadFrontMatter (capFiles : List String) (fm : RoadFM) :
    List String × List String :=
  match fm.governance with
  | none => (roadRequiredFieldErrors fm, [])
  | some g =>
    (roadRequiredFieldErrors fm ++ roadAdrsSectionErrors g ++
      roadBddSectionErrors fm.status g ++ roadNfrSectionErrors fm.status g ++
      roadCapabilityRuleErrors g ++ roadCapabilityRefErrors capFiles g,
     roadAdrsSectionWarnings g)

/-! ## validateStateMachine (governance-linter.js lines 547-590) -/

/-- The transition check of `validateStateMachine`: the error pushed when
`currentStatus !== previousState && !validNextStates.includes(currentStatus)`. -/
def stateTransitionErrors (prev : String) (currentStatus : Option String) : List String :=
  let validNext := transitionsFor prev
  let includesCur : Bool :=
    match currentStatus with
    | some c => validNext.contains c
    | none => false
  if currentStatus ≠ some prev ∧ includesCur = false then
    [invalidTransitionMsg prev (renderOpt currentStatus)]
  else []

/-- Statuses subject to the ADR gate (`bdd_pending` and beyond). -/
def ADR_GATED_STATUSES : List String :=
  ["bdd_pending", "bdd_complete", "implementing", "nfr_validating", "complete"]

/-- The gate checks of `validateStateMachine` (governance-linter.js lines
559-587): ADR validation, BDD approval, and NFR results before `complete`. -/
def gateErrors (fm : RoadFM) : List String :=
  let e1 :=
    match fm.status with
    | some c =>
      if ADR_GATED_STATUSES.contains c ∧ fm.adrsValidated = false then
        [s!"ADR validation required before {c}"]
      else []
    | none => []
  let e2 :=
    if (fm.status = some "implementing" ∨ fm.status = some "nfr_validating" ∨
        fm.status = some "complete") ∧ fm.bddStatus ≠ some "approved" then
      ["BDD approval required before implementing"]
    else []
  let e3 :=
    if fm.status = some "complete" then
      (if fm.nfrsStatus ≠ some "pass" then ["All NFRs must pass before complete"] else []) ++
      fm.nfrsApplicable.flatMap (fun nfrId =>
        if (lookupNfr fm.nfrsResults nfrId).bind NfrResult.status ≠ some "pass" then
          [s!"NFR {nfrId} must pass before complete"]
        else [])
    else []
  e1 ++ e2 ++ e3

/-- `validateStateMachine(filePath, frontMatter, previousState)`: when no
previous state is given the function returns immediately with no errors (line
550), skipping the gate checks as well. -/
def validateStateMachine (fm : RoadFM) (previousState : Option String) : List String :=
  match previousState with
  | none => []
  | some prev => stateTransitionErrors prev fm.status ++ gateErrors fm

/-! ## Data model of CHANGE front matter -/

/-- One entry of the `signatures` list of a CHANGE entry. -/
structure Signature where
  agent : Option String := none
  role : Option String := none
  status : Option String := none
  timestamp : Option String := none
deriving DecidableEq

/-- A compliance check holding a status (`adr_check`, or one entry of
`nfr_checks`). -/
structure ComplianceCheck where
  status : Option String := none
deriving DecidableEq

/-- The `compliance.bdd_check` record. -/
structure BddCheck where
  status : Option String := none
  scenarios : Option Int := none
  passed : Option Int := none
deriving DecidableEq

/-- The `compliance.nfr_checks` record. -/
structure NfrChecks where
  performance : Option ComplianceCheck := none
  security : Option ComplianceCheck := none
  accessibility : Option ComplianceCheck := none
deriving DecidableEq

/-- The `compliance` record of a CHANGE entry. -/
structure Compliance where
  adr_check : Option ComplianceCheck := none
  bdd_check : Option BddCheck := none
  nfr_checks : Option NfrChecks := none
deriving DecidableEq

/-- Front matter of a CHANGE entry (the fields the validators read). -/
structure ChangeFM where
  id : Option String := none
  road_id : Option String := none
  title : Option String := none
  date : Option String := none
  version : Option String := none
  status : Option String := none
  categories : Option (List String) := none
  compliance : Option Compliance := none
  signatures : Option (List Signature) := none
deriving DecidableEq

/-- `findRoadFile(roadId)` followed by reading that road's front matter:
the docs tree is modelled as an association list from road id to the declared
status of the ROAD file carrying that id. -/
def lookupRoad (roads : List (String × Option String)) (roadId : String) :
    Option (Option String) :=
  (roads.find? (fun p => p.1 == roadId)).map Prod.snd

/-! ## validateChangeFrontMatter (governance-linter.js lines 595-655) -/

/-- The `requiredAgents` list of `validateChangeFrontMatter`. -/
def REQUIRED_AGENTS : List String :=
  ["@arch-inspector", "@bdd-writer", "@bdd-runner", "@code-writer",
   "@performance-agent", "@security-agent", "@a11y-agent"]

/-- The required-field and id-format checks of `validateChangeFrontMatter`
(lines 600-612). -/
def changeRequiredAndIdErrors (fm : ChangeFM) : List String :=
  (if fm.id = none then ["Missing required field: id"] else []) ++
  (if fm.road_id = none then ["Missing required field: road_id"] else []) ++
  (if fm.status = none then ["Missing required field: status"] else []) ++
  (match fm.id with
   | some i => if !matchesChangeId i then [s!"Invalid id format: {i} (expected CHANGE-XXX)"] else []
   | none => []) ++
  (match fm.road_id with
   | some r => if !matchesRoadId r then [s!"Invalid road_id format: {r}"] else []
   | none => [])

/-- The ROAD-reference check of `validateChangeFrontMatter` (lines 614-626):
the referenced ROAD item must exist and be `complete`.  Runs for every CHANGE
entry regardless of status. -/
def changeRoadRefErrors (roads : List (String × Option String))
    (road_id : Option String) : List String :=
  match road_id with
  | some r =>
    match lookupRoad roads r with
    | none => [s!"Referenced ROAD item not found: {r}"]
    | some st =>
      if st ≠ some "complete" then
        let stR := renderOpt st
        [s!"Referenced ROAD item is not complete: {r} (status: {stR})"]
      else []
  | none => []

/-- The published-signatures check of `validateChangeFrontMatter` (lines
629-652): only the signatures found for the seven `requiredAgents` are
examined. -/
def changePublishedSignatureErrors (status : Option String)
    (signatures : Option (List Signature)) : List String :=
  if status = some "published" then
    match signatures with
    | none => ["Published CHANGE entries must have signatures array"]
    | some sigs =>
      REQUIRED_AGENTS.flatMap (fun agent =>
        match sigs.find? (fun s => s.agent == some agent) with
        | none => [s!"Missing signature from {agent}"]
        | some sig =>
          if sig.status ≠ some "approved" then
            [s!"{agent} signature status must be \x27approved\x27"]
          else [])
  else []

/-- `validateChangeFrontMatter(filePath, frontMatter)` of governance-linter.js
(lines 595-655).  This function is defined in the source but has no call site
there: neither `lintChangeFiles` nor validate-changes.js invokes it.  `roads`
is the `findRoadFile` environment.  Returns the errors list (its warnings list
is always empty in the source). -/
def validateChangeFrontMatter (roads : List (String × Option String))
    (fm : ChangeFM) : List String :=
  changeRequiredAndIdErrors fm ++ changeRoadRefErrors roads fm.road_id ++
    changePublishedSignatureErrors fm.status fm.signatures

/-! ## The governance linter's run machinery (results, lintRoadItem,
lintChangeFiles, exit code) -/

/-- Outcome of locating a file and extracting its front matter. -/
inductive FMParse (α : Type) where
  | missing
  | failed (msg : String)
  | parsed (fm : α)
deriving DecidableEq

/-- True exactly on successfully parsed front matter. -/
def FMParse.isParsed : FMParse α → Bool
  | .parsed _ => true
  | _ => false

/-- Outcome of `yaml.load` on the front-matter text: a value, or a raised
exception with its message. -/
inductive YamlLoad (α : Type) where
  | value (v : α)
  | raised (msg : String)
deriving DecidableEq

/-- `extractFrontMatter(content)` of governance-linter.js (lines 431-440):
without a `---` block it returns null (here `.missing`); otherwise it returns
the `yaml.load` value, converting a raised exception into the `{error: message}`
object (here `.failed msg`) instead of throwing. -/
def extractFrontMatter (hasBlock : Bool) (load : YamlLoad α) : FMParse α :=
  if hasBlock then
    match load with
    | .value v => .parsed v
    | .raised m => .failed m
  else .missing

/-- The `results` accumulator of governance-linter.js: each entry is
`(record id, message)`. -/
structure LintResults where
  errors : List (String × String) := []
  warnings : List (String × String) := []
  passed : List (String × String) := []
  total : Nat := 0
deriving DecidableEq

/-- Sequential accumulation of two results records. -/
def LintResults.merge (a b : LintResults) : LintResults :=
  { errors := a.errors ++ b.errors
    warnings := a.warnings ++ b.warnings
    passed := a.passed ++ b.passed
    total := a.total + b.total }

/-- `process.exit(1)` when `results.errors.length > 0`, else `process.exit(0)`
(governance-linter.js lines 1745-1749). -/
def governanceLinterExitCode (r : LintResults) : Nat :=
  if r.errors.isEmpty then 0 else 1

/-- `lintRoadItem(roadId)` of governance-linter.js (lines 957-1033).  `file` is
`none` when `findRoadFile` finds no file for the id, otherwise the extraction
outcome for the found file.  Note line 1015: `validateStateMachine` is called
with `previousState = null`. -/
def lintRoadItem (capFiles : List String) (roadId : String)
    (file : Option (FMParse RoadFM)) : LintResults :=
  match file with
  | none => { errors := [(roadId, s!"ROAD item not found: {roadId}")] }
  | some .missing => { errors := [(roadId, "No front matter found")] }
  | some (.failed m) => { errors := [(roadId, s!"Invalid YAML: {m}")] }
  | some (.parsed fm) =>
    let fmv := validateRoadFrontMatter capFiles fm
    let sv := validateStateMachine fm none
    { errors := (fmv.1 ++ sv).map (fun m => (roadId, m))
      warnings := fmv.2.map (fun m => (roadId, m))
      passed := if fmv.1 = [] ∧ sv = [] then [(roadId, "All validations passed")] else []
      total := 1 }

/-- `s.startsWith(pat)`. -/
def strStartsWith (s pat : String) : Bool :=
  charsHavePre pat.data s.data

/-- `findRoadFile(roadId)` of governance-linter.js (lines 710-720): scan the
docs tree (here the list of front-matter extraction outcomes of its Markdown
files) and return the first file whose extraction produced an object carrying
the sought id.  A file whose extraction returned null or `{error: message}`
has no `id` and is never returned — so `lintRoadItem`'s no-front-matter and
Invalid-YAML branches cannot be reached through this lookup.  The found
file's outcome is returned because `lintRoadItem` re-reads and re-extracts
that same file, with the same result on a static filesystem. -/
def findRoadFile (docs : List (FMParse RoadFM)) (roadId : String) :
    Option (FMParse RoadFM) :=
  docs.find? (fun f =>
    match f with
    | .parsed fm => fm.id == some roadId
    | _ => false)

/-- One iteration of the `lintAllRoads` loop (governance-linter.js lines
1041-1054): template and index files are skipped, and a file is linted only
when `frontMatter && frontMatter.id && frontMatter.id.startsWith('ROAD-')` —
so a file whose front matter is absent, failed to parse, or lacks a `ROAD-`
id contributes nothing at all to the results. -/
def lintAllRoadsFile (capFiles : List String) (docs : List (FMParse RoadFM))
    (f : String × FMParse RoadFM) : LintResults :=
  if f.1 == "ROAD-TEMPLATE.md" || f.1 == "index.md" then {}
  else
    match f.2 with
    | .parsed fm =>
      match fm.id with
      | some i =>
        if strStartsWith i "ROAD-" then lintRoadItem capFiles i (findRoadFile docs i)
        else {}
      | none => {}
    | .missing => {}
    | .failed _ => {}

/-- `lintAllRoads()` of governance-linter.js (lines 1038-1055): each file of
the roads directory (`roadsFiles`, basename and extraction outcome) is
processed in sequence against the docs tree `docs` used by `findRoadFile`. -/
def lintAllRoads (capFiles : List String) (docs : List (FMParse RoadFM))
    (roadsFiles : List (String × FMParse RoadFM)) : LintResults :=
  roadsFiles.foldr (fun f acc => (lintAllRoadsFile capFiles docs f).merge acc) {}

/-- The per-file validation inlined in `lintChangeFiles` (governance-linter.js
lines 1098-1139): required fields, compliance-section presence, and the
non-empty-signatures rule for published entries.  No status enum check and no
`road_id` resolution happens here. -/
def lintChangeFileErrors (fm : ChangeFM) : List String :=
  (if fm.id = none then ["Missing required field: id"] else []) ++
  (if fm.road_id = none then ["Missing required field: road_id"] else []) ++
  (if fm.title = none then ["Missing required field: title"] else []) ++
  (if fm.date = none then ["Missing required field: date"] else []) ++
  (if fm.version = none then ["Missing required field: version"] else []) ++
  (if fm.status = none then ["Missing required field: status"] else []) ++
  (if fm.categories = none then ["Missing required field: categories"] else []) ++
  (match fm.compliance with
   | none => ["Missing compliance section"]
   | some c =>
     (if c.adr_check = none then ["Missing compliance check: adr_check"] else []) ++
     (if c.bdd_check = none then ["Missing compliance check: bdd_check"] else []) ++
     (if c.nfr_checks = none then ["Missing compliance check: nfr_checks"] else [])) ++
  (if fm.status = some "published" ∧ (fm.signatures.getD []).isEmpty then
    ["Published changes must have at least one signature"]
  else [])

/-- One iteration of the `lintChangeFiles` loop (governance-linter.js lines
1073-1146): `results.total` is incremented before the parse checks, parse
failures record an error and skip the rest, and for parseable front matter the
`passed` entry is pushed unconditionally after the checks. -/
def lintChangeFile (changeId : String) (file : FMParse ChangeFM) : LintResults :=
  match file with
  | .missing => { errors := [(changeId, "No front matter found")], total := 1 }
  | .failed m => { errors := [(changeId, s!"Invalid YAML: {m}")], total := 1 }
  | .parsed fm =>
    { errors := (lintChangeFileErrors fm).map (fun m => (changeId, m))
      passed := [(changeId, "CHANGE file validated")]
      total := 1 }

/-- `lintChangeFiles()` of governance-linter.js (lines 1060-1147): a missing
`docs/changes/` directory is itself recorded as an error; otherwise every
CHANGE file is processed in sequence. -/
def lintChangeFiles (changesDir : Option (List (String × FMParse ChangeFM))) :
    LintResults :=
  match changesDir with
  | none => { errors := [("docs/changes", "docs/changes/ directory not found")] }
  | some files => files.foldr (fun f acc => (lintChangeFile f.1 f.2).merge acc) {}

/-! ## validate-changes.js -/

/-- `VALID_STATUSES` of validate-changes.js (line 233): a three-value set. -/
def VALID_STATUSES : List String := ["draft", "published", "archived"]

/-- `VALID_CATEGORIES` of validate-changes.js. -/
def VALID_CATEGORIES : List String :=
  ["Added", "Changed", "Deprecated", "Removed", "Fixed", "Security"]

/-- JS `![...].includes(x)` where `x` may be undefined: an absent status never
belongs to the allowed set. -/
def statusNotIn (allowed : List String) (st : Option String) : Bool :=
  match st with
  | some s => !allowed.contains s
  | none => true

/-- The string values reachable from a CHANGE record, modelling the value part
of `JSON.stringify(data)` for the placeholder scan (the keys are schema-fixed
and contain no placeholder text). -/
def ChangeFM.stringValues (fm : ChangeFM) : List String :=
  [fm.id, fm.road_id, fm.title, fm.date, fm.version, fm.status].reduceOption ++
  fm.categories.getD [] ++
  (match fm.compliance with
   | none => []
   | some c =>
     (match c.adr_check with | some a => a.status.toList | none => []) ++
     (match c.bdd_check with | some b => b.status.toList | none => []) ++
     (match c.nfr_checks with
      | some n =>
        ((n.performance.bind ComplianceCheck.status).toList) ++
        ((n.security.bind ComplianceCheck.status).toList) ++
        ((n.accessibility.bind ComplianceCheck.status).toList)
      | none => [])) ++
  (fm.signatures.getD []).flatMap (fun s =>
    [s.agent, s.role, s.status, s.timestamp].reduceOption)

/-- `validateChange(filePath)` of validate-changes.js (lines 246-357), applied
to already-parsed front matter.  Note the status enum accepts `archived`, the
published-signatures check only requires the four fields per signature (never
`status === 'approved'`), and `road_id` is never resolved. -/
def validateChange (fm : ChangeFM) : List String :=
  let req :=
    (if fm.id = none then ["Missing required field: id"] else []) ++
    (if fm.road_id = none then ["Missing required field: road_id"] else []) ++
    (if fm.title = none then ["Missing required field: title"] else []) ++
    (if fm.date = none then ["Missing required field: date"] else []) ++
    (if fm.version = none then ["Missing required field: version"] else []) ++
    (if fm.status = none then ["Missing required field: status"] else []) ++
    (if fm.categories = none then ["Missing required field: categories"] else [])
  let st :=
    match fm.status with
    | some s =>
      if !VALID_STATUSES.contains s then
        [s!"Invalid status: {s}. Must be one of: draft, published, archived"]
      else []
    | none => []
  let cats :=
    (fm.categories.getD []).flatMap (fun c =>
      if !VALID_CATEGORIES.contains c then
        [s!"Invalid category: {c}. Must be one of: Added, Changed, Deprecated, Removed, Fixed, Security"]
      else [])
  let comp :=
    match fm.compliance with
    | none => ["Missing compliance section"]
    | some c =>
      (if c.adr_check = none then ["Missing compliance check: adr_check"] else []) ++
      (if c.bdd_check = none then ["Missing compliance check: bdd_check"] else []) ++
      (if c.nfr_checks = none then ["Missing compliance check: nfr_checks"] else []) ++
      (match c.adr_check with
       | some a =>
         if statusNotIn ["pending", "pass", "fail"] a.status then
           let r := renderOpt a.status
           [s!"Invalid adr_check.status: {r}"]
         else []
       | none => []) ++
      (match c.bdd_check with
       | some b =>
         (if statusNotIn ["pending", "pass", "fail"] b.status then
           let r := renderOpt b.status
           [s!"Invalid bdd_check.status: {r}"]
         else []) ++
         (if b.scenarios = none then ["bdd_check.scenarios must be a number"] else []) ++
         (if b.passed = none then ["bdd_check.passed must be a number"] else [])
       | none => []) ++
      (match c.nfr_checks with
       | some n =>
         (match n.performance with
          | none => ["Missing nfr_checks.performance"]
          | some ch =>
            if statusNotIn ["pending", "pass", "fail", "na"] ch.status then
              let r := renderOpt ch.status
              [s!"Invalid nfr_checks.performance.status: {r}"]
            else []) ++
         (match n.security with
          | none => ["Missing nfr_checks.security"]
          | some ch =>
            if statusNotIn ["pending", "pass", "fail", "na"] ch.status then
              let r := renderOpt ch.status
              [s!"Invalid nfr_checks.security.status: {r}"]
            else []) ++
         (match n.accessibility with
          | none => ["Missing nfr_checks.accessibility"]
          | some ch =>
            if statusNotIn ["pending", "pass", "fail", "na"] ch.status then
              let r := renderOpt ch.status
              [s!"Invalid nfr_checks.accessibility.status: {r}"]
            else [])
       | none => [])
  let sigs :=
    if fm.status = some "published" then
      if (fm.signatures.getD []).isEmpty then
        ["Published changes must have at least one signature"]
      else
        ((fm.signatures.getD []).enum).flatMap (fun p =>
          let i := p.1
          let sig := p.2
          (if sig.agent = none then [s!"Signature {i + 1} missing agent field"] else []) ++
          (if sig.role = none then [s!"Signature {i + 1} missing role field"] else []) ++
          (if sig.status = none then [s!"Signature {i + 1} missing status field"] else []) ++
          (if sig.timestamp = none then [s!"Signature {i + 1} missing timestamp field"] else []))
    else []
  let ph :=
    if (fm.stringValues).any (fun s => strContainsSub s "XXX" || strContainsSub s "YYY") then
      ["Frontmatter contains placeholder text (XXX or YYY)"]
    else []
  req ++ st ++ cats ++ comp ++ sigs ++ ph

/-- The directory handling and exit code of validate-changes.js `main()`
(lines 362-423): a missing changes directory exits with code 1; otherwise the
exit code is 1 exactly when some file failed validation. -/
def validateChangesMainExit (changesDir : Option (List ChangeFM)) : Nat :=
  match changesDir with
  | none => 1
  | some files => if files.any (fun fm => !(validateChange fm).isEmpty) then 1 else 0

/-! ## The simple road/ADR linter variant (part one of the combined source) -/

/-- The summary record returned by `validateAllRoads` / `validateAllAdrs`. -/
structure Summary where
  total : Nat := 0
  passed : Nat := 0
  failed : Nat := 0
deriving DecidableEq

/-- `validateAllRoads()` of the simple linter variant (lines 214-252): a
missing or empty roads directory yields the zero summary; otherwise each file
is counted as passed or failed by its `validateRoadItem` error list (each file
abstracted here to that error list). -/
def validateAllRoads (roadsDir : Option (List (List String))) : Summary :=
  match roadsDir with
  | none => {}
  | some files =>
    { total := files.length
      passed := (files.filter (fun e => e.isEmpty)).length
      failed := (files.filter (fun e => !e.isEmpty)).length }

/-- `validateAllAdrs()` of the simple linter variant (lines 257-299), with the
same missing-directory behaviour as `validateAllRoads`. -/
def validateAllAdrs (adrsDir : Option (List (List String))) : Summary :=
  match adrsDir with
  | none => {}
  | some files =>
    { total := files.length
      passed := (files.filter (fun e => e.isEmpty)).length
      failed := (files.filter (fun e => !e.isEmpty)).length }

/-- The exit logic of the simple linter variant's `main()` (lines 304-330):
exit 1 only when some file failed. -/
def roadLinterMainExit (roads adrs : Summary) : Nat :=
  if roads.failed + adrs.failed > 0 then 1 else 0

/-! ## Concrete records used by the theorems -/

/-- A well-formed ROAD item at `bdd_pending` whose `governance.adrs.validated`
is `false`. -/
def roadBddPendingNoAdr : RoadFM :=
  { id := some "ROAD-001"
    title := some "Demo item"
    status := some "bdd_pending"
    governance := some
      { adrs := some { validated := some false }
        bdd := some { id := some "BDD-001" }
        nfrs := some { applicable := some ["NFR-PERF-001"], status := some "pending" } } }

/-- A ROAD item at `complete` whose `governance.nfrs.status` is `pass` but
whose `governance.nfrs.results` lacks an entry for the applicable
`NFR-SEC-001`. -/
def roadCompleteMissingNfrResult : RoadFM :=
  { id := some "ROAD-002"
    title := some "Demo item"
    status := some "complete"
    governance := some
      { adrs := some { validated := some true, validated_by := some "@arch-inspector" }
        bdd := some { id := some "BDD-002", status := some "approved" }
        nfrs := some
          { applicable := some ["NFR-SEC-001"]
            status := some "pass"
            results := some [] } } }

/-- A ROAD item declaring `nfr_blocked`. -/
def roadNfrBlockedFM : RoadFM :=
  { id := some "ROAD-003"
    title := some "Demo item"
    status := some "nfr_blocked" }

/-- A ROAD item declaring `proposed`. -/
def roadProposedFM : RoadFM :=
  { id := some "ROAD-005"
    title := some "Demo item"
    status := some "proposed" }

/-- Scenario A of the spec: `status: complete` with
`governance.nfrs.status: pending`. -/
def roadScenarioA : RoadFM :=
  { id := some "ROAD-004"
    title := some "Demo item"
    status := some "complete"
    governance := some
      { adrs := some { validated := some true, validated_by := some "@arch-inspector" }
        bdd := some { id := some "BDD-004", status := some "approved" }
        nfrs := some
          { applicable := some ["NFR-PERF-001"]
            status := some "pending"
            results := some [] } } }

/-! ## C1 -/

/-- Claim C1 (code bug): the ADR-validation gate for statuses at or beyond
`bdd_pending` lives in `validateStateMachine` behind the
`if (!previousState) return` guard, and `lintRoadItem` always passes
`previousState = null` (line 1015), so a validation run over a record with
`status = bdd_pending` and `governance.adrs.validated = false` reports no
error at all — even though the guarded gate check would produce exactly the
claimed error if a previous state were supplied. -/
theorem c1_adr_gate_unreported :
    (lintRoadItem [] "ROAD-001" (some (.parsed roadBddPendingNoAdr))).errors = [] ∧
    roadBddPendingNoAdr.status = some "bdd_pending" ∧
    roadBddPendingNoAdr.adrsValidated = false ∧
    "ADR validation required before bdd_pending" ∈
      validateStateMachine roadBddPendingNoAdr (some "adr_validated") := by
  decide

/-! ## C3 -/

/-- Claim C3 (code bug): the per-NFR-id check for `complete` records sits in
`validateStateMachine` behind the `if (!previousState) return` guard, and the
run always passes `previousState = null`, so a complete record whose
applicable `NFR-SEC-001` has no passing entry in `governance.nfrs.results`
yields zero errors — even though the guarded check would produce the claimed
error naming the NFR id if a previous state were supplied. -/
theorem c3_nfr_id_check_unreported :
    (lintRoadItem [] "ROAD-002" (some (.parsed roadCompleteMissingNfrResult))).errors = [] ∧
    roadCompleteMissingNfrResult.status = some "complete" ∧
    "NFR-SEC-001" ∈ roadCompleteMissingNfrResult.nfrsApplicable ∧
    lookupNfr roadCompleteMissingNfrResult.nfrsResults "NFR-SEC-001" = none ∧
    "NFR NFR-SEC-001 must pass before complete" ∈
      validateStateMachine roadCompleteMissingNfrResult (some "nfr_validating") := by
  decide

/-! ## C2 -/

/-- Claim C2, counterexample: the spec's table allows
`nfr_validating → nfr_blocked`, but the code's `STATE_MACHINE_TRANSITIONS`
maps `nfr_validating` to `['complete']` only, so the checker reports an
invalid-transition error on that spec-allowed pair; the two relations are not
equal. -/
theorem c2_counterexample_nfr_blocked :
    specTransitionsFor "nfr_validating" = ["complete", "nfr_blocked"] ∧
    transitionsFor "nfr_validating" = ["complete"] ∧
    validateStateMachine roadNfrBlockedFM (some "nfr_validating") =
      ["Invalid state transition: nfr_validating → nfr_blocked"] := by
  decide

/-- Claim C2 as amended: the table the checker validates against is the code's
`STATE_MACHINE_TRANSITIONS` — `proposed → adr_validated`, `adr_validated →
bdd_pending`, `bdd_pending → bdd_complete`, `bdd_complete → implementing`,
`implementing → nfr_validating`, `nfr_validating → complete`, and no outgoing
transitions for `complete` or for `nfr_blocked` (which has no table entry and
defaults to the empty list); for every previously observed status and
different declared status not on this table the checker reports the
invalid-transition error, and for a declared status equal to the previous one
or on the table the transition check contributes no error. -/
theorem c2_transition_table_amended :
    (transitionsFor "proposed" = ["adr_validated"] ∧
     transitionsFor "adr_validated" = ["bdd_pending"] ∧
     transitionsFor "bdd_pending" = ["bdd_complete"] ∧
     transitionsFor "bdd_complete" = ["implementing"] ∧
     transitionsFor "implementing" = ["nfr_validating"] ∧
     transitionsFor "nfr_validating" = ["complete"] ∧
     transitionsFor "complete" = [] ∧
     transitionsFor "nfr_blocked" = []) ∧
    (∀ (prev cur : String) (fm : RoadFM), fm.status = some cur → cur ≠ prev →
      (transitionsFor prev).contains cur = false →
      invalidTransitionMsg prev cur ∈ validateStateMachine fm (some prev)) ∧
    (∀ (prev cur : String) (fm : RoadFM), fm.status = some cur →
      (cur = prev ∨ (transitionsFor prev).contains cur = true) →
      stateTransitionErrors prev fm.status = []) := by
  refine ⟨by decide, ?_, ?_⟩
  · intro prev cur fm hst hne hcontains
    unfold validateStateMachine
    apply List.mem_append_left
    unfold stateTransitionErrors
    rw [hst]
    simp only [hcontains]
    rw [if_pos]
    · simp [invalidTransitionMsg, renderOpt]
    · exact ⟨by simpa using hne, by simp⟩
  · intro prev cur fm hst hcase
    unfold stateTransitionErrors
    rw [hst]
    rcases hcase with h | h
    · rw [if_neg]
      intro ⟨h1, _⟩
      exact h1 (by rw [h])
    · simp only [h]
      rw [if_neg]
      intro ⟨_, h2⟩
      simp at h2

/-- Witness for the amended C2 theorem at a concrete input: `proposed` is not
a valid successor of `complete`, and the checker reports it. -/
theorem c2_transition_table_amended_witness :
    invalidTransitionMsg "complete" "proposed" ∈
      validateStateMachine roadProposedFM (some "complete") :=
  c2_transition_table_amended.2.1 "complete" "proposed" roadProposedFM rfl
    (by decide) (by decide)

/-! ## C4 -/

/-- Claim C4 (confirmed): for every ROAD record with status `complete` whose
`governance.nfrs.status` is present and not `pass`, the validation run
(`lintRoadItem` on parsed front matter) reports the error `All NFRs must pass
before status can be complete`, and the run exits with code 1. -/
theorem c4_complete_requires_nfr_pass
    (capFiles : List String) (roadId : String) (fm : RoadFM)
    (g : Governance) (n : NfrsGov)
    (hst : fm.status = some "complete") (hgov : fm.governance = some g)
    (hnfrs : g.nfrs = some n) (hns : n.status ≠ some "pass") :
    (roadId, "All NFRs must pass before status can be complete") ∈
      (lintRoadItem capFiles roadId (some (.parsed fm))).errors ∧
    governanceLinterExitCode (lintRoadItem capFiles roadId (some (.parsed fm))) = 1 := by
  have hmsg : "All NFRs must pass before status can be complete" ∈
      roadNfrSectionErrors fm.status g := by
    unfold roadNfrSectionErrors
    rw [hnfrs, hst]
    apply List.mem_append_right
    rw [if_pos (by simp)]
    apply List.mem_append_right
    rw [if_pos ⟨rfl, hns⟩]
    simp
  have hmem : "All NFRs must pass before status can be complete" ∈
      (validateRoadFrontMatter capFiles fm).1 := by
    unfold validateRoadFrontMatter
    rw [hgov]
    apply List.mem_append_left
    apply List.mem_append_left
    apply List.mem_append_right
    exact hmsg
  have hmem' : (roadId, "All NFRs must pass before status can be complete") ∈
      (lintRoadItem capFiles roadId (some (.parsed fm))).errors := by
    unfold lintRoadItem
    exact List.mem_map.mpr
      ⟨"All NFRs must pass before status can be complete",
       List.mem_append_left _ hmem, rfl⟩
  refine ⟨hmem', ?_⟩
  have hne := List.ne_nil_of_mem hmem'
  unfold governanceLinterExitCode
  rw [if_neg (by simpa [List.isEmpty_iff] using hne)]

/-- Witness for C4 at the spec's Scenario A record: `status: complete` with
`governance.nfrs.status: pending` errors and exits 1. -/
theorem c4_complete_requires_nfr_pass_witness :
    ("ROAD-004", "All NFRs must pass before status can be complete") ∈
      (lintRoadItem [] "ROAD-004" (some (.parsed roadScenarioA))).errors ∧
    governanceLinterExitCode (lintRoadItem [] "ROAD-004" (some (.parsed roadScenarioA))) = 1 :=
  c4_complete_requires_nfr_pass [] "ROAD-004" roadScenarioA _ _ rfl rfl rfl (by decide)

/-! ## C5 -/

/-- A fully-approved signature from the given agent. -/
def approvedSig (agent : String) : Signature :=
  { agent := some agent
    role := some "validator"
    status := some "approved"
    timestamp := some "2026-02-01T10:00:00Z" }

/-- A signature from an agent outside the required set whose status is
`rejected`. -/
def rogueSig : Signature :=
  { agent := some "@rogue-agent"
    role := some "observer"
    status := some "rejected"
    timestamp := some "2026-02-01T11:00:00Z" }

/-- A published CHANGE entry carrying approved signatures from all seven
required agents plus one rejected signature from an unlisted agent. -/
def changePublishedRogue : ChangeFM :=
  { id := some "CHANGE-001"
    road_id := some "ROAD-010"
    status := some "published"
    signatures := some (REQUIRED_AGENTS.map approvedSig ++ [rogueSig]) }

/-- A `findRoadFile` environment holding one complete ROAD item. -/
def roadsEnvComplete : List (String × Option String) := [("ROAD-010", some "complete")]

/-- Claim C5, counterexample: a published CHANGE entry whose signatures list
contains a signature with status `rejected` (from an agent outside the
required set) validates with zero errors, so it is false that every
signature's status must equal `approved` and that such a signature is
reported as an error. -/
theorem c5_counterexample_unchecked_signature :
    validateChangeFrontMatter roadsEnvComplete changePublishedRogue = [] ∧
    changePublishedRogue.status = some "published" ∧
    rogueSig ∈ changePublishedRogue.signatures.getD [] ∧
    rogueSig.status ≠ some "approved" := by
  decide

/-- Claim C5 as amended: for a published CHANGE entry, a missing (or
non-array) signatures list is an error; for each of the seven fixed required
agents, the absence of a signature from that agent is an error, and a found
signature from that agent whose status is not `approved` is an error.
Signatures from agents outside the required set are not checked (and an empty
list is reported through the seven missing-agent errors). -/
theorem c5_published_signatures_amended
    (roads : List (String × Option String)) (fm : ChangeFM)
    (hpub : fm.status = some "published") :
    (fm.signatures = none →
      "Published CHANGE entries must have signatures array" ∈
        validateChangeFrontMatter roads fm) ∧
    (∀ sigs, fm.signatures = some sigs →
      (∀ agent ∈ REQUIRED_AGENTS,
        sigs.find? (fun s => s.agent == some agent) = none →
        s!"Missing signature from {agent}" ∈ validateChangeFrontMatter roads fm) ∧
      (∀ agent sig, agent ∈ REQUIRED_AGENTS →
        sigs.find? (fun s => s.agent == some agent) = some sig →
        sig.status ≠ some "approved" →
        s!"{agent} signature status must be \x27approved\x27" ∈
          validateChangeFrontMatter roads fm)) := by
  constructor
  · intro hnone
    unfold validateChangeFrontMatter
    apply List.mem_append_right
    unfold changePublishedSignatureErrors
    rw [hpub, if_pos rfl, hnone]
    simp
  · intro sigs hsigs
    constructor
    · intro agent hagent hfind
      unfold validateChangeFrontMatter
      apply List.mem_append_right
      unfold changePublishedSignatureErrors
      rw [hpub, if_pos rfl, hsigs]
      exact List.mem_flatMap.mpr ⟨agent, hagent, by rw [hfind]; simp⟩
    · intro agent sig hagent hfind hstatus
      unfold validateChangeFrontMatter
      apply List.mem_append_right
      unfold changePublishedSignatureErrors
      rw [hpub, if_pos rfl, hsigs]
      exact List.mem_flatMap.mpr ⟨agent, hagent, by rw [hfind]; simp [hstatus]⟩

/-- A published CHANGE entry with an empty signatures list. -/
def changePublishedEmptySigs : ChangeFM :=
  { id := some "CHANGE-010"
    road_id := some "ROAD-010"
    status := some "published"
    signatures := some [] }

/-- Witness for the amended C5 theorem: a published entry with an empty
signatures list is reported as missing the `@arch-inspector` signature. -/
theorem c5_published_signatures_amended_witness :
    "Missing signature from @arch-inspector" ∈
      validateChangeFrontMatter roadsEnvComplete changePublishedEmptySigs :=
  ((c5_published_signatures_amended roadsEnvComplete changePublishedEmptySigs
    rfl).2 [] rfl).1 "@arch-inspector" (by decide) rfl

/-! ## C6 -/

/-- A complete, well-formed `compliance` record. -/
def fullCompliance : Compliance :=
  { adr_check := some { status := some "pass" }
    bdd_check := some { status := some "pass", scenarios := some 3, passed := some 3 }
    nfr_checks := some
      { performance := some { status := some "pass" }
        security := some { status := some "pass" }
        accessibility := some { status := some "na" } } }

/-- A published CHANGE entry whose `road_id` references the non-existent
`ROAD-999`, with every other field well-formed. -/
def changeDanglingRoad : ChangeFM :=
  { id := some "CHANGE-002"
    road_id := some "ROAD-999"
    title := some "Demo change"
    date := some "2026-02-01"
    version := some "1.0.0"
    status := some "published"
    categories := some ["Added"]
    compliance := some fullCompliance
    signatures := some [approvedSig "@arch-inspector"] }

/-- Claim C6 (code bug): the ROAD-reference check exists only in
`validateChangeFrontMatter`, which no run invokes.  A published CHANGE entry
referencing the non-existent `ROAD-999` produces zero errors under both
executed change validations — the governance linter's change pass
(`lintChangeFiles`) and validate-changes.js (`validateChange`) — while the
uninvoked `validateChangeFrontMatter` would report the error naming
`ROAD-999`. -/
theorem c6_road_ref_check_not_executed :
    lintChangeFileErrors changeDanglingRoad = [] ∧
    validateChange changeDanglingRoad = [] ∧
    changeDanglingRoad.status = some "published" ∧
    changeDanglingRoad.road_id = some "ROAD-999" ∧
    lookupRoad [] "ROAD-999" = none ∧
    "Referenced ROAD item not found: ROAD-999" ∈
      validateChangeFrontMatter [] changeDanglingRoad := by
  decide

/-! ## C7 -/

/-- A CHANGE entry with status `archived` and every other field well-formed. -/
def changeArchived : ChangeFM :=
  { changeDanglingRoad with
    id := some "CHANGE-003"
    road_id := some "ROAD-010"
    status := some "archived"
    signatures := none }

/-- The same CHANGE entry with a status outside even the code's enum. -/
def changeRetired : ChangeFM :=
  { changeArchived with status := some "retired" }

/-- Claim C7 (code bug): validate-changes.js' `VALID_STATUSES` is the
three-value set `draft, published, archived`, so a record with status
`archived` validates with zero errors and no invalid-status error is
reported — contrary to the claimed two-value enum (which the repository's own
scripts/README.md documents).  The enum check itself works: a status outside
the code's set, such as `retired`, is reported. -/
theorem c7_archived_status_accepted :
    "archived" ∈ VALID_STATUSES ∧
    changeArchived.status = some "archived" ∧
    validateChange changeArchived = [] ∧
    "Invalid status: retired. Must be one of: draft, published, archived" ∈
      validateChange changeRetired := by
  decide

/-! ## C8 -/

/-- Claim C8, counterexample: a missing changes directory is itself recorded
as an error by the governance linter's change pass (exiting 1), and
validate-changes.js exits 1 when the directory is missing — so it is false
that for every validator kind a missing records directory is never an error
or a failure exit. -/
theorem c8_counterexample_missing_changes_dir :
    (lintChangeFiles none).errors =
      [("docs/changes", "docs/changes/ directory not found")] ∧
    governanceLinterExitCode (lintChangeFiles none) = 1 ∧
    validateChangesMainExit none = 1 := by
  decide

/-- Claim C8 as amended: the road and ADR validators treat an empty or
missing directory as zero records checked, zero failures and exit code 0,
but the change validators do not — the governance linter's change pass
records the missing `docs/changes/` directory as an error and exits 1, and
validate-changes.js exits 1 on a missing changes directory (an empty changes
directory is still zero records, exit 0). -/
theorem c8_missing_directory_amended :
    validateAllRoads none = { total := 0, passed := 0, failed := 0 } ∧
    validateAllRoads (some []) = { total := 0, passed := 0, failed := 0 } ∧
    validateAllAdrs none = { total := 0, passed := 0, failed := 0 } ∧
    roadLinterMainExit (validateAllRoads none) (validateAllAdrs none) = 0 ∧
    lintChangeFiles (some []) = ({} : LintResults) ∧
    governanceLinterExitCode (lintChangeFiles (some [])) = 0 ∧
    validateChangesMainExit (some []) = 0 ∧
    (lintChangeFiles none).errors ≠ [] ∧
    governanceLinterExitCode (lintChangeFiles none) = 1 ∧
    validateChangesMainExit none = 1 := by
  decide

/-! ## Helper lemmas about batch accumulation -/

/-- Merging from the empty accumulator is the identity. -/
theorem lintResults_empty_merge (b : LintResults) :
    LintResults.merge {} b = b := by
  cases b
  simp [LintResults.merge]

/-- Sequential accumulation is associative. -/
theorem lintResults_merge_assoc (a b c : LintResults) :
    (a.merge b).merge c = a.merge (b.merge c) := by
  cases a; cases b; cases c
  simp [LintResults.merge, List.append_assoc, Nat.add_assoc]

/-- The change-file pass over a concatenated batch is the accumulation of the
passes over the two halves: no file's outcome affects the processing of the
files after it. -/
theorem lintChangeFiles_append (xs ys : List (String × FMParse ChangeFM)) :
    lintChangeFiles (some (xs ++ ys)) =
      (lintChangeFiles (some xs)).merge (lintChangeFiles (some ys)) := by
  induction xs with
  | nil => rw [List.nil_append]; exact (lintResults_empty_merge _).symm
  | cons x xs ih =>
    show (lintChangeFile x.1 x.2).merge (lintChangeFiles (some (xs ++ ys))) = _
    rw [ih]
    show _ = ((lintChangeFile x.1 x.2).merge (lintChangeFiles (some xs))).merge _
    rw [lintResults_merge_assoc]

/-- The road pass over a concatenated batch is the accumulation of the passes
over the two halves. -/
theorem lintAllRoads_append (capFiles : List String) (docs : List (FMParse RoadFM))
    (xs ys : List (String × FMParse RoadFM)) :
    lintAllRoads capFiles docs (xs ++ ys) =
      (lintAllRoads capFiles docs xs).merge (lintAllRoads capFiles docs ys) := by
  induction xs with
  | nil => rw [List.nil_append]; exact (lintResults_empty_merge _).symm
  | cons x xs ih =>
    show (lintAllRoadsFile capFiles docs x).merge (lintAllRoads capFiles docs (xs ++ ys)) = _
    rw [ih]
    show _ = ((lintAllRoadsFile capFiles docs x).merge (lintAllRoads capFiles docs xs)).merge _
    rw [lintResults_merge_assoc]

/-- A road file whose front-matter extraction failed contributes nothing to
the road pass. -/
theorem lintAllRoadsFile_failed (capFiles : List String) (docs : List (FMParse RoadFM))
    (name m : String) :
    lintAllRoadsFile capFiles docs (name, .failed m) = {} := by
  unfold lintAllRoadsFile
  split <;> rfl

/-- Dropping a malformed road file from the head of the batch leaves the road
pass's results unchanged. -/
theorem lintAllRoads_failed_cons (capFiles : List String) (docs : List (FMParse RoadFM))
    (name m : String) (files : List (String × FMParse RoadFM)) :
    lintAllRoads capFiles docs ((name, .failed m) :: files) =
      lintAllRoads capFiles docs files := by
  show (lintAllRoadsFile capFiles docs (name, .failed m)).merge
      (lintAllRoads capFiles docs files) = _
  rw [lintAllRoadsFile_failed, lintResults_empty_merge]

/-- Each change file contributes one `passed` entry exactly when its front
matter parsed. -/
theorem lintChangeFile_passed_length (cid : String) (f : FMParse ChangeFM) :
    (lintChangeFile cid f).passed.length = if f.isParsed then 1 else 0 := by
  cases f <;> rfl

/-! ## C9 -/

/-- Claim C9, counterexample: a road file whose front matter raised a YAML
parse error is silently skipped by the road pass — `lintAllRoads` only lints
files whose parsed front matter carries a `ROAD-` id — so a batch holding the
malformed `ROAD-007.md` and a valid road file yields no error at all (no
`Invalid YAML` entry) and the run exits 0, refuting the claim that every
malformed-YAML file is reported with a per-file error. -/
theorem c9_counterexample_malformed_road_silent :
    extractFrontMatter (α := RoadFM) true (.raised "bad indent") = .failed "bad indent" ∧
    lintAllRoads [] [.parsed roadBddPendingNoAdr]
        [("ROAD-007.md", .failed "bad indent"),
         ("ROAD-001.md", .parsed roadBddPendingNoAdr)] =
      { errors := []
        warnings := []
        passed := [("ROAD-001", "All validations passed")]
        total := 1 } ∧
    governanceLinterExitCode
      (lintAllRoads [] [.parsed roadBddPendingNoAdr]
        [("ROAD-007.md", .failed "bad indent"),
         ("ROAD-001.md", .parsed roadBddPendingNoAdr)]) = 0 := by
  decide

/-- Claim C9 as amended: `extractFrontMatter` converts a raised YAML parse
exception into the `{error: message}` outcome instead of throwing; in the
change-file pass such a file is reported with a per-file `Invalid YAML: …`
error; in the road pass such a file is silently skipped and contributes
nothing (no error is recorded for it); and in both passes a batch over a
concatenation equals the merged results of its halves, so one broken file
never aborts the run and every subsequent file is still validated —
demonstrated also on a concrete two-file change batch where the file after
the broken one is still validated. -/
theorem c9_parse_error_amended :
    (∀ (m : String), extractFrontMatter (α := ChangeFM) true (.raised m) = .failed m) ∧
    (∀ (m cid : String),
      (cid, s!"Invalid YAML: {m}") ∈ (lintChangeFile cid (.failed m)).errors) ∧
    (∀ (xs ys : List (String × FMParse ChangeFM)),
      lintChangeFiles (some (xs ++ ys)) =
        (lintChangeFiles (some xs)).merge (lintChangeFiles (some ys))) ∧
    (∀ (capFiles : List String) (docs : List (FMParse RoadFM))
        (xs ys : List (String × FMParse RoadFM)),
      lintAllRoads capFiles docs (xs ++ ys) =
        (lintAllRoads capFiles docs xs).merge (lintAllRoads capFiles docs ys)) ∧
    (∀ (capFiles : List String) (docs : List (FMParse RoadFM)) (name m : String)
        (files : List (String × FMParse RoadFM)),
      lintAllRoads capFiles docs ((name, .failed m) :: files) =
        lintAllRoads capFiles docs files) ∧
    lintChangeFiles
        (some [("CHANGE-000", .failed "bad indent"), ("CHANGE-003", .parsed changeArchived)]) =
      { errors := [("CHANGE-000", "Invalid YAML: bad indent")]
        warnings := []
        passed := [("CHANGE-003", "CHANGE file validated")]
        total := 2 } := by
  refine ⟨fun m => rfl, ?_, lintChangeFiles_append, lintAllRoads_append,
    lintAllRoads_failed_cons, by decide⟩
  intro m cid
  simp [lintChangeFile]

/-! ## C10 -/

/-- A CHANGE entry identical to `changeDanglingRoad` but missing its title. -/
def changeMissingTitle : ChangeFM :=
  { changeDanglingRoad with title := none }

/-- Claim C10 (confirmed): the governance linter's change pass appends every
CHANGE file with parseable front matter to `passed` unconditionally, so the
passed count equals the number of parseable change files processed rather
than the number of error-free ones — and a single file can appear in both the
errors and the passed sections, as the concrete one-file batch shows. -/
theorem c10_change_pass_counts_all_parsed :
    (∀ (files : List (String × FMParse ChangeFM)),
      (lintChangeFiles (some files)).passed.length =
        (files.filter (fun f => f.2.isParsed)).length) ∧
    (lintChangeFiles (some [("CHANGE-009", .parsed changeMissingTitle)])).errors =
      [("CHANGE-009", "Missing required field: title")] ∧
    (lintChangeFiles (some [("CHANGE-009", .parsed changeMissingTitle)])).passed =
      [("CHANGE-009", "CHANGE file validated")] := by
  refine ⟨?_, by decide, by decide⟩
  intro files
  induction files with
  | nil => rfl
  | cons x xs ih =>
    have h1 : (lintChangeFiles (some (x :: xs))).passed
        = (lintChangeFile x.1 x.2).passed ++ (lintChangeFiles (some xs)).passed := rfl
    rw [h1, List.length_append, lintChangeFile_passed_length, ih, List.filter_cons]
    cases hx : x.2.isParsed <;> simp [hx, Nat.add_comm]

end GovLint
